import Mathlib

/-!
Verification of the python-database repository: a shallow embedding in Lean 4
of the chunk codec (`src/main/functions/format_conversion.py`), the pooled-DB
singleton (`src/pydb/main/func/create_db_pool.py`), the dispatch facade
(`src/pydb/main/database.py`), the MariaDB connector
(`src/pydb/util/mysql/main.py`) and the MongoDB connector
(`src/pydb/util/mongo/main.py`), together with theorems settling the frozen
claims about them.

Python dictionaries are modelled as association lists preserving insertion
order; byte strings as `List Char`; exceptions as `Except` results carrying
the python exception kind and message.
-/

/-- Python exception kinds raised by the embedded code. -/
inductive PyErr where
  | assertionError (msg : String)
  | runtimeError (msg : String)
  | valueError (msg : String)
  | nameError (msg : String)
  | typeError (msg : String)
  | importError (msg : String)
  deriving DecidableEq, Repr

/-! ## Chunk codec (`formatConversion` in format_conversion.py)

`zstandard.compress` / `zstandard.decompress` are an external library; they are
modelled as an arbitrary pair of functions `comp` / `decomp` satisfying the
library's contract `decomp (comp l) = l` where a theorem needs it. -/

/-- One record chunk as built by `formatConversion._split_`:
`{_id, accession_version, sequence (compressed), chunk_number}`. -/
structure Chunk where
  _id : String
  accession_version : String
  sequence : List Char
  chunk_number : Nat
  deriving DecidableEq, Repr

/-- Python `range(0, stop, step)` for a positive `step`:
`[0, step, 2*step, ...)` strictly below `stop`. -/
def pyRange0 (stop step : Nat) : List Nat :=
  List.range' 0 ((stop + step - 1) / step) step

namespace formatConversion

/-- `formatConversion.set`: `cls.n_size = int(3*10e4) if target == "mongodb" else int(6*10e3)`
(`3*10e4 = 300000.0`, `6*10e3 = 60000.0`). -/
def set_n_size (target : String) : Nat :=
  if target = "mongodb" then 300000 else 60000

/-- `formatConversion._split_`: for `idx, pos in enumerate(range(0, len(sequence), size))`
append `{_id: f"{identifier}_{idx}", accession_version: identifier,
sequence: compress(sequence[pos:pos+size]), chunk_number: idx}`. -/
def split (comp : List Char → List Char) (identifier : String)
    (sequence : List Char) (size : Nat) : List Chunk :=
  (pyRange0 sequence.length size).enum.map fun p =>
    { _id := identifier ++ "_" ++ toString p.1
      accession_version := identifier
      sequence := comp ((sequence.drop p.2).take size)
      chunk_number := p.1 }

/-- The key ordering used by `sorted(sequences, key=lambda x: x['chunk_number'])`. -/
def byChunkNumber (a b : Chunk) : Prop := a.chunk_number ≤ b.chunk_number

instance : DecidableRel byChunkNumber := fun a b =>
  inferInstanceAs (Decidable (a.chunk_number ≤ b.chunk_number))

/-- `formatConversion._merge_`: stable-sort by `chunk_number`, decompress each
payload, join, take the identifier from the first sorted record. The
`IndexError` on an empty input (caught and re-raised as `ValueError` in the
source) is `none`. -/
def merge (decomp : List Char → List Char) (sequences : List Chunk) :
    Option (String × List Char) :=
  let sorted := List.insertionSort byChunkNumber sequences
  match sorted with
  | [] => none
  | first :: _ =>
      some (first.accession_version, (sorted.map fun x => decomp x.sequence).flatten)

end formatConversion

/-! ### Chunk codec lemmas -/

lemma pyRange0_stop_zero (step : Nat) (hstep : 0 < step) : pyRange0 0 step = [] := by
  unfold pyRange0
  rw [Nat.div_eq_of_lt (by omega)]
  simp

lemma pyRange0_cons (stop step : Nat) (hstop : 0 < stop) (hstep : 0 < step) :
    pyRange0 stop step = 0 :: ((pyRange0 (stop - step) step).map (step + ·)) := by
  unfold pyRange0
  have h1 : (stop + step - 1) / step = (stop - 1) / step + 1 := by
    rw [show stop + step - 1 = (stop - 1) + step by omega, Nat.add_div_right _ hstep]
  have h2 : (stop - step + step - 1) / step = (stop - 1) / step := by
    rcases Nat.le_total step stop with h | h
    · rw [show stop - step + step - 1 = stop - 1 by omega]
    · rw [show stop - step = 0 by omega]
      rw [Nat.div_eq_of_lt (by omega), Nat.div_eq_of_lt (by omega)]
  rw [h1, h2, List.range'_succ, List.map_add_range']
  norm_num

lemma flatten_pyRange0_slices (step : Nat) (hstep : 0 < step) :
    ∀ (n : Nat) (s : List Char), s.length ≤ n →
      ((pyRange0 s.length step).map fun pos => (s.drop pos).take step).flatten = s := by
  intro n
  induction n with
  | zero =>
    intro s hs
    have hnil : s = [] := List.eq_nil_of_length_eq_zero (by omega)
    subst hnil
    simp [pyRange0_stop_zero step hstep]
  | succ n ih =>
    intro s hs
    rcases eq_or_ne s [] with rfl | hne
    · simp [pyRange0_stop_zero step hstep]
    · have hlen : 0 < s.length := List.length_pos.mpr hne
      rw [pyRange0_cons _ _ hlen hstep, List.map_cons, List.map_map, List.flatten_cons,
          List.drop_zero]
      have hfun : ((fun pos => (s.drop pos).take step) ∘ (step + ·)) =
          fun pos => (((s.drop step).drop pos).take step) := by
        funext pos
        simp only [Function.comp_apply, List.drop_drop]
      rw [hfun]
      have hlen' : s.length - step = (s.drop step).length := (List.length_drop _ _).symm
      rw [hlen', ih (s.drop step) (by rw [List.length_drop]; omega)]
      exact List.take_append_drop step s

lemma pairwise_fst_le_enumFrom {α : Type} (l : List α) :
    ∀ n, List.Pairwise (fun a b => a.1 ≤ b.1) (List.enumFrom n l) := by
  induction l with
  | nil => intro n; simp
  | cons x xs ih =>
    intro n
    rw [List.enumFrom_cons]
    constructor
    · rintro ⟨i, b⟩ hb
      have := (List.mem_enumFrom hb).1
      simpa using by omega
    · exact ih (n + 1)

lemma sorted_split (comp : List Char → List Char) (identifier : String)
    (s : List Char) (size : Nat) :
    List.Sorted formatConversion.byChunkNumber
      (formatConversion.split comp identifier s size) := by
  unfold formatConversion.split List.Sorted
  rw [List.pairwise_map]
  exact (pairwise_fst_le_enumFrom _ 0).imp (fun h => h)

lemma split_ne_nil (comp : List Char → List Char) (identifier : String)
    (s : List Char) (size : Nat) (hsize : 0 < size) (hs : s ≠ []) :
    formatConversion.split comp identifier s size ≠ [] := by
  have hlen : 0 < s.length := List.length_pos.mpr hs
  intro h
  have := congrArg List.length h
  simp only [formatConversion.split, List.length_map, List.enum_length,
    pyRange0, List.length_range', List.length_nil] at this
  have hle : size ≤ s.length + size - 1 := by omega
  have := (Nat.one_le_div_iff hsize).mpr hle
  omega

lemma split_map_decomp (comp decomp : List Char → List Char)
    (hcd : ∀ l, decomp (comp l) = l) (identifier : String) (s : List Char) (size : Nat) :
    (formatConversion.split comp identifier s size).map (fun x => decomp x.sequence) =
      (pyRange0 s.length size).map fun pos => (s.drop pos).take size := by
  unfold formatConversion.split
  rw [List.map_map]
  have h1 : ((fun x : Chunk => decomp x.sequence) ∘ fun p : Nat × Nat =>
      ({ _id := identifier ++ "_" ++ toString p.1, accession_version := identifier,
         sequence := comp ((s.drop p.2).take size), chunk_number := p.1 } : Chunk)) =
      fun p : Nat × Nat => (s.drop p.2).take size := by
    funext p
    simp [hcd]
  rw [h1]
  have h2 : (pyRange0 s.length size).enum.map (fun p : Nat × Nat => (s.drop p.2).take size) =
      ((pyRange0 s.length size).enum.map Prod.snd).map fun pos => (s.drop pos).take size := by
    rw [List.map_map]
    rfl
  rw [h2, List.enum_map_snd]

/-- C1 (amended): with the codec configured with a positive chunk size and the
compressor contract `decomp (comp l) = l`, merging the chunks produced by split
reproduces the original identifier and sequence for every NON-EMPTY sequence.
(For the empty sequence split yields zero chunks and merge of zero chunks
fails, see the counterexample theorem.) -/
theorem chunk_roundtrip (comp decomp : List Char → List Char)
    (hcd : ∀ l, decomp (comp l) = l) (idf : String) (s : List Char) (size : Nat)
    (hsize : 0 < size) (hs : s ≠ []) :
    formatConversion.merge decomp (formatConversion.split comp idf s size) =
      some (idf, s) := by
  have hsorted := sorted_split comp idf s size
  have hne := split_ne_nil comp idf s size hsize hs
  obtain ⟨c, rest, hsplit⟩ := List.exists_cons_of_ne_nil hne
  have hacc : c.accession_version = idf := by
    have hc : c ∈ formatConversion.split comp idf s size := by
      rw [hsplit]; exact List.mem_cons_self c rest
    unfold formatConversion.split at hc
    obtain ⟨p, _, hp⟩ := List.mem_map.mp hc
    rw [← hp]
  have hflat : ((formatConversion.split comp idf s size).map
      (fun x => decomp x.sequence)).flatten = s := by
    rw [split_map_decomp comp decomp hcd idf s size]
    exact flatten_pyRange0_slices size hsize s.length s le_rfl
  unfold formatConversion.merge
  rw [hsorted.insertionSort_eq, hsplit]
  simp only [Option.some.injEq, Prod.mk.injEq]
  refine ⟨hacc, ?_⟩
  rw [hsplit] at hflat
  exact hflat

/-- C1 counterexample: the claim "for any string s including the empty string"
fails at the empty string. With the codec configured via `set("mongodb")`
(chunk size 300000), `split` of the empty sequence produces zero chunks and
`merge` of zero chunks fails (the source raises `ValueError` from the
`IndexError` on `sequences[0]`), so the round trip does not return
`{identifier: "ACC1", sequence: ""}`. -/
theorem chunk_roundtrip_empty_cex :
    formatConversion.merge (fun l => l)
      (formatConversion.split (fun l => l) "ACC1" []
        (formatConversion.set_n_size "mongodb")) ≠ some ("ACC1", []) := by
  decide

/-- Witness for `chunk_roundtrip` at the spec's own scenario: identifier
"ACC1", sequence "AAAA", chunk size 2, identity compressor. -/
theorem chunk_roundtrip_witness :
    formatConversion.merge (fun l => l)
      (formatConversion.split (fun l => l) "ACC1" ['A', 'A', 'A', 'A'] 2) =
      some ("ACC1", ['A', 'A', 'A', 'A']) :=
  chunk_roundtrip (fun l => l) (fun l => l) (fun _ => rfl) "ACC1"
    ['A', 'A', 'A', 'A'] 2 (by decide) (by decide)

/-! ## Pooled-DB singleton (`DBPool` in pydb/main/func/create_db_pool.py)

Python object identity (`is`) is modelled by tagging every allocated object
with a fresh `objId` drawn from a counter in the process-wide `PoolWorld`. -/

/-- A credential set: the `_dbc` dict passed to `DBPool`. -/
abbrev CredSet := List (String × String)

/-- Python `{**a, **b}`: the keys of `a` in order with values overridden by
`b` where present, followed by the keys of `b` not in `a`. -/
def pyDictMerge (a b : List (String × String)) : List (String × String) :=
  (a.map fun kv => (kv.1, (b.lookup kv.1).getD kv.2)) ++
    b.filter fun kv => (a.lookup kv.1).isNone

/-- The fixed entries of `_pool_config` built in `DBPool.__post_init__`
before the credential dict is merged in. -/
def poolDefaults : List (String × String) :=
  [("creator", "pymysql"), ("mincached", "1"), ("maxcached", "5"),
   ("maxshared", "3"), ("maxconnections", "10")]

/-- A `PooledDB` object as constructed by `DBPool.get_pool`. -/
structure PooledDBObj where
  objId : Nat
  config : List (String × String)
  deriving DecidableEq, Repr

/-- A `DBPool` dataclass instance (fields `_dbc` and, from `__post_init__`,
`_pool_config`). -/
structure DBPoolInst where
  objId : Nat
  _dbc : CredSet
  _pool_config : List (String × String)
  deriving DecidableEq, Repr

/-- Process-wide state: the `Singleton._instances` entry for the `DBPool`
class, plus the fresh-object counter. -/
structure PoolWorld where
  registry : Option DBPoolInst
  nextId : Nat
  deriving DecidableEq, Repr

/-- `Singleton.__call__` applied to `DBPool(dbc)`: if the class has no cached
instance yet, construct one (running `__post_init__`, which merges the pool
sizing defaults with the credential dict); otherwise return the cached
instance — the metaclass keys `_instances` by `cls`, so the arguments of the
later call are ignored. -/
def DBPool.call (w : PoolWorld) (dbc : CredSet) : DBPoolInst × PoolWorld :=
  match w.registry with
  | some inst => (inst, w)
  | none =>
      let inst : DBPoolInst :=
        { objId := w.nextId, _dbc := dbc,
          _pool_config := pyDictMerge poolDefaults dbc }
      (inst, { registry := some inst, nextId := w.nextId + 1 })

/-- `DBPool.get_pool`: `return PooledDB(**self._pool_config)` — a NEW
`PooledDB` object is constructed on every call. -/
def DBPoolInst.get_pool (inst : DBPoolInst) (w : PoolWorld) :
    PooledDBObj × PoolWorld :=
  ({ objId := w.nextId, config := inst._pool_config },
   { w with nextId := w.nextId + 1 })

/-- C2 counterexample: starting from a fresh process, requesting a pool for
credentials `{host: a}` twice yields two DISTINCT `PooledDB` objects, and a
request for different credentials `{host: b}` yields the SAME `DBPool`
instance as the first request (still configured with `{host: a}`) — both
directions of the claim fail. -/
theorem pool_singleton_cex :
    (((DBPool.call { registry := none, nextId := 0 } [("host", "a")]).1.get_pool
        (DBPool.call { registry := none, nextId := 0 } [("host", "a")]).2).1 ≠
      ((DBPool.call { registry := none, nextId := 0 } [("host", "a")]).1.get_pool
        ((DBPool.call { registry := none, nextId := 0 } [("host", "a")]).1.get_pool
          (DBPool.call { registry := none, nextId := 0 } [("host", "a")]).2).2).1) ∧
    (DBPool.call ((DBPool.call { registry := none, nextId := 0 } [("host", "a")]).1.get_pool
        (DBPool.call { registry := none, nextId := 0 } [("host", "a")]).2).2
        [("host", "b")]).1 =
      (DBPool.call { registry := none, nextId := 0 } [("host", "a")]).1 := by
  decide

/-- C2 (amended): the `DBPool` singleton is keyed by the class, not the
credential set. In a fresh process the first request constructs the instance
with `_pool_config = defaults ∪ credentials`; ANY later request — identical
or different credentials — returns that same instance unchanged, and every
`get_pool` call builds a fresh `PooledDB` object (distinct identity) from the
FIRST credential set. -/
theorem pool_singleton_class_keyed (w : PoolWorld) (hreg : w.registry = none)
    (A B : CredSet) :
    (DBPool.call (DBPool.call w A).2 B).1 = (DBPool.call w A).1 ∧
    (DBPool.call (DBPool.call w A).2 B).2 = (DBPool.call w A).2 ∧
    (DBPool.call w A).1._pool_config = pyDictMerge poolDefaults A ∧
    ((DBPool.call w A).1.get_pool (DBPool.call w A).2).1.objId ≠
      ((DBPool.call w A).1.get_pool
        ((DBPool.call w A).1.get_pool (DBPool.call w A).2).2).1.objId ∧
    ((DBPool.call w A).1.get_pool (DBPool.call w A).2).1.config =
      pyDictMerge poolDefaults A := by
  simp [DBPool.call, DBPoolInst.get_pool, hreg]

/-- Witness for `pool_singleton_class_keyed` in a fresh process with two
distinct concrete credential sets. -/
theorem pool_singleton_class_keyed_witness :
    ({ registry := none, nextId := 0 } : PoolWorld).registry = none ∧
    (DBPool.call (DBPool.call { registry := none, nextId := 0 } [("host", "a")]).2
        [("host", "b")]).1 =
      (DBPool.call { registry := none, nextId := 0 } [("host", "a")]).1 :=
  ⟨rfl, (pool_singleton_class_keyed { registry := none, nextId := 0 } rfl
      [("host", "a")] [("host", "b")]).1⟩

/-! ## Rows and values shared by the connectors -/

/-- A python value stored in a row or document field. -/
inductive Val where
  | str (s : String)
  | int (n : Int)
  deriving DecidableEq, Repr

/-- A row (or MongoDB document): a python dict as an ordered association
list. -/
abbrev Row := List (String × Val)

/-- The key list of a row (`dict.keys()` order). -/
def keysOf (r : Row) : List String := r.map Prod.fst

/-- Python `dict_keys` equality is set equality. -/
def sameKeySet (a b : List String) : Bool :=
  a.all (b.contains ·) && b.all (a.contains ·)

/-- `fields = data[0].keys(); all(row.keys() == fields for row in data[1:])`. -/
def uniformKeys : List Row → Bool
  | [] => true
  | r :: rest => rest.all fun row => sameKeySet (keysOf row) (keysOf r)

/-! ## MariaDB connector (`mariaConnect` in pydb/util/mysql/main.py)

The connection state models the one table targeted by the call: `pk` is the
unique/primary key column the backend uses for duplicate detection, `rows`
the committed contents, `currentDb` the `conn.database` attribute. The
network round trip of `cursor.execute`/`executemany` is the explicit
`…Exec` function (for the statements whose effect the claims need) or a
function parameter (for `select`, whose result set is backend data). -/

structure MariaState where
  pk : String
  rows : List Row
  currentDb : Option String
  deriving DecidableEq, Repr

/-- `query.lower()`, character by character. -/
def pyLower (q : String) : List Char := q.toList.map Char.toLower

/-- `query.lower().startswith("select")`. -/
def startsWithSelect (q : String) : Bool :=
  ("select".toList).isPrefixOf (pyLower q)

/-- Does the query text contain the SQL line-comment marker `--`
(`"--" in query.lower()`)? -/
def containsDashDash (q : String) : Bool :=
  decide (("--".toList) <:+: pyLower q)

/-- `mariaConnect.select`: asserts the query is non-empty, case-insensitively
starts with `SELECT` and holds no `--`, all BEFORE the optional database
switch and the `cursor.execute` network call (`runQuery`); a
`pymysql.MySQLError` from the backend is re-raised as `RuntimeError` with the
original message embedded. -/
def mariaConnect.select
    (runQuery : String → MariaState → Except String (List Row) × MariaState)
    (st : MariaState) (query : String) (database : Option String) :
    Except PyErr (List Row) × MariaState :=
  if query = "" then (.error (.assertionError "Please set your query"), st)
  else if ¬ startsWithSelect query then
    (.error (.assertionError "Query must start with SELECT"), st)
  else if containsDashDash query then
    (.error (.assertionError "Please remove comment in the query"), st)
  else
    let st1 := match database with
      | some db => { st with currentDb := some db }
      | none => st
    match runQuery query st1 with
    | (.ok rows, st2) => (.ok rows, st2)
    | (.error m, st2) =>
        (.error (.runtimeError ("Error while fetching data from the database: " ++ m)), st2)

/-- The backend executing the bulk `INSERT IGNORE` statement
(`cursor.executemany`): rows are processed in order, a row whose `pk` value
already occurs is ignored, a fresh row is appended; returns the staged table
and `cursor.rowcount` (rows affected). -/
def insertIgnoreExec (pk : String) : List Row → List Row → List Row × Nat
  | table, [] => (table, 0)
  | table, row :: rest =>
    if table.any fun r => r.lookup pk == row.lookup pk then
      insertIgnoreExec pk table rest
    else
      let res := insertIgnoreExec pk (table ++ [row]) rest
      (res.1, res.2 + 1)

/-- `mariaConnect.insert`: asserts a non-empty list with identical key sets,
runs the single bulk `INSERT IGNORE` statement, then commits when
`cursor.rowcount > 0` and otherwise rolls the transaction back (the original
table is kept) and raises `RuntimeError("No data inserted")`. -/
def mariaConnect.insert (st : MariaState) (data : List Row) :
    Except PyErr Unit × MariaState :=
  if data.isEmpty then (.error (.assertionError "Data is empty"), st)
  else if ¬ uniformKeys data then
    (.error (.assertionError "All fields must be identical"), st)
  else
    let res := insertIgnoreExec st.pk st.rows data
    if 0 < res.2 then (.ok (), { st with rows := res.1 })
    else (.error (.runtimeError "No data inserted"), st)

/-- C8: relational select query safety. For EVERY backend behavior
(`runQuery` is universally quantified, so no network call can be involved in
the result), a query that does not case-insensitively start with `SELECT` or
that contains `--` is rejected with an assertion error and the connection
state — including the active-database attribute — is returned exactly as it
was. -/
theorem maria_select_query_safety
    (runQuery : String → MariaState → Except String (List Row) × MariaState)
    (st : MariaState) (query : String) (database : Option String)
    (hbad : ¬ (startsWithSelect query = true ∧ containsDashDash query = false)) :
    ∃ msg, mariaConnect.select runQuery st query database =
      (.error (.assertionError msg), st) := by
  unfold mariaConnect.select
  by_cases h0 : query = ""
  · exact ⟨"Please set your query", by simp [h0]⟩
  · by_cases h1 : startsWithSelect query
    · have h2 : containsDashDash query = true := by
        rcases Bool.eq_false_or_eq_true (containsDashDash query) with h | h
        · exact h
        · exact absurd ⟨h1, h⟩ hbad
      exact ⟨"Please remove comment in the query", by simp [h0, h1, h2]⟩
    · exact ⟨"Query must start with SELECT", by simp [h0, h1]⟩

/-- Witness for `maria_select_query_safety`: the query
`SELECT * FROM t -- drop` contains a comment marker and is rejected with the
state unchanged, for a backend that would otherwise answer. -/
theorem maria_select_query_safety_witness :
    ∃ msg, mariaConnect.select (fun _ st => (.ok [], st))
        { pk := "id", rows := [], currentDb := none }
        "SELECT * FROM t -- drop" none =
      (.error (.assertionError msg), { pk := "id", rows := [], currentDb := none }) :=
  maria_select_query_safety (fun _ st => (.ok [], st))
    { pk := "id", rows := [], currentDb := none } "SELECT * FROM t -- drop" none
    (by decide)

lemma insertIgnoreExec_count_zero (pk : String) : ∀ (data table : List Row),
    (insertIgnoreExec pk table data).2 = 0 ↔
      ∀ row ∈ data, ∃ r ∈ table, r.lookup pk = row.lookup pk := by
  intro data
  induction data with
  | nil => intro table; simp [insertIgnoreExec]
  | cons row rest ih =>
    intro table
    by_cases h : table.any fun r => r.lookup pk == row.lookup pk
    · have hex : ∃ r ∈ table, r.lookup pk = row.lookup pk := by
        rw [List.any_eq_true] at h
        obtain ⟨r, hr, hm⟩ := h
        exact ⟨r, hr, beq_iff_eq.mp hm⟩
      have hstep : insertIgnoreExec pk table (row :: rest) =
          insertIgnoreExec pk table rest := by
        simp [insertIgnoreExec, h]
      rw [hstep, ih table]
      constructor
      · intro hall x hx
        rcases List.mem_cons.mp hx with rfl | hx
        · exact hex
        · exact hall x hx
      · intro hall x hx
        exact hall x (List.mem_cons_of_mem _ hx)
    · have hstep : (insertIgnoreExec pk table (row :: rest)).2 =
          (insertIgnoreExec pk (table ++ [row]) rest).2 + 1 := by
        simp [insertIgnoreExec, h]
      constructor
      · intro hc
        rw [hstep] at hc
        omega
      · intro hall
        exfalso
        obtain ⟨r, hr, hm⟩ := hall row (List.mem_cons_self _ _)
        exact h (List.any_eq_true.mpr ⟨r, hr, beq_iff_eq.mpr hm⟩)

/-- C5: relational insert outcome check and atomicity. For every non-empty
uniform-keyed row list, the insert commits exactly when the bulk
`INSERT IGNORE` affected at least one row — equivalently, when some incoming
row has a key value not already present in the table; when zero rows are
affected the transaction is rolled back (the returned state is the original
one, so no partial write is observable) and the error is
`RuntimeError("No data inserted")`. -/
theorem maria_insert_outcome (st : MariaState) (data : List Row)
    (hne : data ≠ []) (huk : uniformKeys data = true) :
    ((mariaConnect.insert st data).1 = .ok () ↔
      ∃ row ∈ data, ∀ r ∈ st.rows, r.lookup st.pk ≠ row.lookup st.pk) ∧
    ((mariaConnect.insert st data).1 ≠ .ok () →
      mariaConnect.insert st data = (.error (.runtimeError "No data inserted"), st)) := by
  have hkey : 0 < (insertIgnoreExec st.pk st.rows data).2 ↔
      ∃ row ∈ data, ∀ r ∈ st.rows, r.lookup st.pk ≠ row.lookup st.pk := by
    rw [← not_iff_not]
    push_neg
    rw [Nat.le_zero, insertIgnoreExec_count_zero]
  unfold mariaConnect.insert
  rw [if_neg (by simp [hne]), if_neg (by simp [huk])]
  by_cases hc : 0 < (insertIgnoreExec st.pk st.rows data).2
  · rw [if_pos hc]
    constructor
    · simpa using hkey.mp hc
    · intro hnok
      exact absurd rfl hnok
  · rw [if_neg hc]
    constructor
    · constructor
      · intro h
        exact absurd h (by simp)
      · intro hex
        exact absurd (hkey.mpr hex) hc
    · intro _
      rfl

/-- Witness for `maria_insert_outcome`: a one-row batch whose key value
already sits in the table affects zero rows, so the transaction is rolled
back with `RuntimeError("No data inserted")` and the state is unchanged. -/
theorem maria_insert_outcome_witness :
    mariaConnect.insert
        { pk := "id", rows := [[("id", Val.int 1)]], currentDb := none }
        [[("id", Val.int 1)]] =
      (.error (.runtimeError "No data inserted"),
       { pk := "id", rows := [[("id", Val.int 1)]], currentDb := none }) :=
  (maria_insert_outcome
    { pk := "id", rows := [[("id", Val.int 1)]], currentDb := none }
    [[("id", Val.int 1)]] (by decide) (by decide)).2
    (fun h => Except.noConfusion h)

/-- The `update_targets` argument of `mariaConnect.merge`
(`Union[List, str] = None`). -/
inductive Targets where
  | none
  | one (s : String)
  | many (l : List String)
  deriving DecidableEq, Repr

/-- The `ON DUPLICATE KEY UPDATE` clause of the statement `merge` builds:
increment mode produces `target=target+1`, field-merge mode
`f=VALUES(f), ...` over the listed fields. -/
inductive OnDup where
  | increment (field : String)
  | overwrite (fields : List String)
  deriving DecidableEq, Repr

/-- SQL `x = x + 1` on an integer column. -/
def incVal : Val → Val
  | .int n => .int (n + 1)
  | v => v

/-- Apply the on-duplicate clause to the existing row `old` for the incoming
row `new`. -/
def applyOnDup : OnDup → Row → Row → Row
  | .increment f, old, _ =>
      old.map fun kv => if kv.1 = f then (kv.1, incVal kv.2) else kv
  | .overwrite fs, old, new =>
      old.map fun kv =>
        if fs.contains kv.1 then (kv.1, (new.lookup kv.1).getD kv.2) else kv

/-- The backend executing the bulk upsert statement
(`INSERT IGNORE ... ON DUPLICATE KEY UPDATE ...` via `executemany`): per
incoming row, a key conflict applies the on-duplicate clause to the existing
row (MySQL reports 2 affected rows for an update that changed the row, 0 for
one that left it unchanged), a fresh row is appended (1 affected). -/
def upsertExec (pk : String) (od : OnDup) : List Row → List Row → List Row × Nat
  | table, [] => (table, 0)
  | table, row :: rest =>
    if table.any fun r => r.lookup pk == row.lookup pk then
      let table1 := table.map fun r =>
        if r.lookup pk == row.lookup pk then applyOnDup od r row else r
      let res := upsertExec pk od table1 rest
      (res.1, res.2 + (if table1 = table then 0 else 2))
    else
      let res := upsertExec pk od (table ++ [row]) rest
      (res.1, res.2 + 1)

/-- `mariaConnect.merge`: asserts a non-empty uniform-keyed list; in increment
mode `update_targets` must be a single string naming the field to increment by
one on key conflict; in field-merge mode the listed `update_targets` fields
(or all fields when unset) are overwritten with the incoming values; then the
same commit-if-affected / rollback-otherwise rule as `insert`. -/
def mariaConnect.merge (st : MariaState) (data : List Row)
    (update_targets : Targets) (increment : Bool) :
    Except PyErr Unit × MariaState :=
  if data.isEmpty then (.error (.assertionError "Data is empty"), st)
  else if ¬ uniformKeys data then
    (.error (.assertionError "All fields must be identical"), st)
  else
    let fields := keysOf (data.headD [])
    let clause : Except PyErr OnDup :=
      if increment then
        match update_targets with
        | .one f => .ok (.increment f)
        | _ => .error (.assertionError "update_targets must be a string")
      else
        match update_targets with
        | .none => .ok (.overwrite fields)
        | .one s => .ok (.overwrite (fields.filter (· == s)))
        | .many l => .ok (.overwrite (fields.filter (l.contains ·)))
    match clause with
    | .error e => (.error e, st)
    | .ok od =>
      let res := upsertExec st.pk od st.rows data
      if 0 < res.2 then (.ok (), { st with rows := res.1 })
      else (.error (.runtimeError "No data inserted"), st)

/-- C6: relational merge in increment mode. With `increment=True` the call
fails unless `update_targets` is a single string; with
`update_targets="count"` a key conflict increments the stored `count` by
exactly 1 rather than overwriting it: an existing row with count `n` and a
conflicting incoming row with any count `m` leaves the stored count at
`n + 1` (for the spec scenario `n = 5`, `m = 1`: 6, not 1). -/
theorem maria_merge_increment (k : String) (hk : k ≠ "count") (kv : Val)
    (n m : Int) (cdb : Option String) (targets : Targets)
    (hts : ∀ f, targets ≠ Targets.one f) :
    (mariaConnect.merge { pk := k, rows := [[(k, kv), ("count", .int n)]], currentDb := cdb }
        [[(k, kv), ("count", .int m)]] targets true).1 =
      .error (.assertionError "update_targets must be a string") ∧
    mariaConnect.merge { pk := k, rows := [[(k, kv), ("count", .int n)]], currentDb := cdb }
        [[(k, kv), ("count", .int m)]] (Targets.one "count") true =
      (.ok (), { pk := k, rows := [[(k, kv), ("count", .int (n + 1))]], currentDb := cdb }) := by
  constructor
  · have hclause : (match targets with
        | Targets.one f => Except.ok (OnDup.increment f)
        | _ => Except.error (PyErr.assertionError "update_targets must be a string")) =
        (.error (.assertionError "update_targets must be a string") :
          Except PyErr OnDup) := by
      cases targets with
      | none => rfl
      | one f => exact absurd rfl (hts f)
      | many l => rfl
    simp [mariaConnect.merge, uniformKeys, hclause]
  · have hne : Val.int (n + 1) ≠ Val.int n := by
      intro h
      have := Val.int.inj h
      omega
    simp [mariaConnect.merge, uniformKeys, upsertExec, applyOnDup, incVal, hk, hne]

/-- Witness for `maria_merge_increment` at the spec scenario: existing row
`{key: "k", count: 5}`, incoming `{key: "k", count: 1}`,
`update_targets="count"` — the stored count becomes 6. -/
theorem maria_merge_increment_witness :
    mariaConnect.merge
        { pk := "key", rows := [[("key", Val.str "k"), ("count", Val.int 5)]],
          currentDb := none }
        [[("key", Val.str "k"), ("count", Val.int 1)]] (Targets.one "count") true =
      (.ok (), { pk := "key", rows := [[("key", Val.str "k"), ("count", Val.int 6)]],
                 currentDb := none }) :=
  (maria_merge_increment "key" (by decide) (Val.str "k") 5 1 none (Targets.many [])
    (fun f h => Targets.noConfusion h)).2

/-! ## MongoDB connector (`mongoConnect` in pydb/util/mongo/main.py)

The state holds the databases visible to `list_database_names`, each with its
collections and their documents. `ping` (liveness probe / reconnect) does not
change this state and is modelled as the identity.

Both `insert` and `delete` are declared with a bare `*` followed by a newline
and the next parameter — `def insert(self, * rows:list, ...)` and
`def delete(self, * query:dict, ...)` — with NO comma after the `*`. In
python that is a varargs parameter (`*rows` / `*query`), not the keyword-only
marker `*,` that the MariaDB connector and `get_secret` use. So `rows` and
`query` bind to the TUPLE of positional arguments, `rows=...` / `query=...`
are rejected as unexpected keyword arguments, and the parameters after them
are keyword-only. The embeddings below record the behavior this produces. -/

structure MongoState where
  dbs : List (String × List (String × List Row))
  deriving Repr

instance decEqMongoColls : DecidableEq (List (String × List Row)) :=
  inferInstance

instance decEqMongoDbs : DecidableEq (List (String × List (String × List Row))) :=
  inferInstance

instance : DecidableEq MongoState := fun a b =>
  if h : a.dbs = b.dbs then
    .isTrue (by cases a; cases b; simpa using h)
  else
    .isFalse (by intro hc; exact h (congrArg MongoState.dbs hc))

/-- The documents of collection `coll` of database `db`, when both exist. -/
def MongoState.getColl (st : MongoState) (db coll : String) : Option (List Row) :=
  match st.dbs.lookup db with
  | some colls => colls.lookup coll
  | none => none

/-- How `mongoConnect.insert` is invoked: with `rows=` as a keyword argument
(the convention `databaseConnect.insert` uses), or with the row list passed
positionally. -/
inductive CallStyle where
  | keyword
  | positional
  deriving DecidableEq, Repr

/-- `mongoConnect.insert` as the source declares it: `rows` is a varargs
parameter. A keyword call `insert(rows=..., ...)` raises TypeError at the
call boundary; a positional call binds `rows` to a tuple (the 1-tuple holding
the row list), so the first statement
`assert type(rows) == list, "Please set your data as list"` always fails.
Either way the method errors before `ping`, the existence checks and
`insert_many`; the whole `BulkWriteError` handling block — the
merge-on-duplicate re-query/partition/bulk-write recovery as well as the
non-merge `raise RuntimeError(f"...")` whose f-string references an unbound
`e` — is unreachable, and the collection is never written. -/
def mongoConnect.insert (st : MongoState) (call : CallStyle) (_rowsArg : List Row)
    (_collection_name : String) (_database : String) (_is_merge_mode : Bool) :
    Except PyErr Unit × MongoState :=
  match call with
  | .keyword =>
      (.error (.typeError "insert() got an unexpected keyword argument rows"), st)
  | .positional =>
      (.error (.assertionError "Please set your data as list"), st)

/-- `mongoConnect.delete` as the source declares it: `query` is a varargs
parameter, bound to the tuple `queryArgs` of positionally passed filters
(the remaining arguments are keyword-only). `assert query` passes whenever
that tuple is non-empty; after the database and collection existence checks,
`override=True` hands the TUPLE — not a filter mapping — to `delete_many`,
which pymongo rejects with TypeError (the filter must be a mapping); that
TypeError is caught by neither `except pymongo.errors...` clause, so it
escapes raw and nothing is deleted. `override=False` skips `delete_many`
entirely. The state is unchanged on every path. -/
def mongoConnect.delete (st : MongoState) (queryArgs : List (List (String × Val)))
    (collection_name : String) (database : String) (override : Bool) :
    Except PyErr Unit × MongoState :=
  if queryArgs.isEmpty then (.error (.assertionError "Please set your query"), st)
  else if (st.dbs.lookup database).isNone then
    (.error (.assertionError "Please check your database name"), st)
  else
    match st.getColl database collection_name with
    | none => (.error (.assertionError "Please check your collection name"), st)
    | some _ =>
      if override then (.error (.typeError "filter must be a mapping"), st)
      else (.ok (), st)

/-- C4 evaluated at the claimed scenario (3 rows of which the second
duplicates the one existing document, `is_merge_mode=True`): the document
insert cannot reach the bulk-insert / merge-on-duplicate path at all. With
the `rows=` keyword convention it raises TypeError at the call; passed
positionally it fails `assert type(rows) == list` (`rows` is a tuple). No
write is performed — in particular not 2 inserts and 1 replace — and the
collection is unchanged. -/
theorem mongo_insert_unreachable :
    mongoConnect.insert
        ⟨[("ift_sequence", [("seq", [[("_id", Val.int 2), ("v", Val.str "old")]])])]⟩
        CallStyle.keyword
        [[("_id", Val.int 1)], [("_id", Val.int 2)], [("_id", Val.int 3)]]
        "seq" "ift_sequence" true =
      (.error (.typeError "insert() got an unexpected keyword argument rows"),
       ⟨[("ift_sequence", [("seq", [[("_id", Val.int 2), ("v", Val.str "old")]])])]⟩) ∧
    mongoConnect.insert
        ⟨[("ift_sequence", [("seq", [[("_id", Val.int 2), ("v", Val.str "old")]])])]⟩
        CallStyle.positional
        [[("_id", Val.int 1)], [("_id", Val.int 2)], [("_id", Val.int 3)]]
        "seq" "ift_sequence" true =
      (.error (.assertionError "Please set your data as list"),
       ⟨[("ift_sequence", [("seq", [[("_id", Val.int 2), ("v", Val.str "old")]])])]⟩) := by
  exact ⟨rfl, rfl⟩

/-- C7 evaluated at the two cited connector sites. First two conjuncts — the
document connector: a duplicate-key bulk-write failure with
`is_merge_mode=False` can never be reported as a wrapped core error, because
`insert` fails at the call boundary (TypeError under the `rows=` convention,
AssertionError positionally, `rows` being a varargs tuple) before
`insert_many` ever runs; a raw non-core exception escapes with no backend
message embedded, and the handler that would do the wrapping (whose raise
line also references an unbound `e`) is dead code. Third conjunct — the
policy as it does work on the relational connector: a backend `MySQLError`
during select is re-raised as `RuntimeError` with the original message
embedded. -/
theorem connector_error_wrapping_evaluated :
    (mongoConnect.insert
        ⟨[("ift_sequence", [("seq", [[("_id", Val.int 1)]])])]⟩
        CallStyle.keyword [[("_id", Val.int 1)]] "seq" "ift_sequence" false).1 =
      .error (.typeError "insert() got an unexpected keyword argument rows") ∧
    (mongoConnect.insert
        ⟨[("ift_sequence", [("seq", [[("_id", Val.int 1)]])])]⟩
        CallStyle.positional [[("_id", Val.int 1)]] "seq" "ift_sequence" false).1 =
      .error (.assertionError "Please set your data as list") ∧
    (mariaConnect.select (fun _ st => (.error "backend boom", st))
        { pk := "id", rows := [], currentDb := none } "SELECT 1" none).1 =
      .error (.runtimeError
        "Error while fetching data from the database: backend boom") := by
  exact ⟨rfl, rfl, rfl⟩

/-- C9 evaluated on a collection holding one matching document: with
`override=False` the call is the silent no-op the claim describes (success,
state unchanged); but with `override=True` the claimed deletion does NOT
happen — `delete_many` receives the varargs tuple instead of the filter
mapping, the TypeError escapes unwrapped, and the matching document is still
there (state unchanged). -/
theorem mongo_delete_override_broken :
    mongoConnect.delete
        ⟨[("ift_sequence", [("seq", [[("_id", Val.int 1), ("v", Val.str "x")]])])]⟩
        [[("v", Val.str "x")]] "seq" "ift_sequence" false =
      (.ok (),
       ⟨[("ift_sequence", [("seq", [[("_id", Val.int 1), ("v", Val.str "x")]])])]⟩) ∧
    mongoConnect.delete
        ⟨[("ift_sequence", [("seq", [[("_id", Val.int 1), ("v", Val.str "x")]])])]⟩
        [[("v", Val.str "x")]] "seq" "ift_sequence" true =
      (.error (.typeError "filter must be a mapping"),
       ⟨[("ift_sequence", [("seq", [[("_id", Val.int 1), ("v", Val.str "x")]])])]⟩) := by
  exact ⟨rfl, rfl⟩

/-! ## Dispatch facade (`databaseConnect` in pydb/main/database.py)

The facade stores the logical `name` it was opened with and dispatches its
`select`/`insert` bodies on that stored name inside a `try:` whose bare
`except:` replaces every exception with
`ValueError("Invalid input arguments")`. The connector calls are passed in as
functions so the theorems can quantify over backend behavior. Python
truthiness of the argument values (`assert query` etc.) is `pyTruthyStr` /
`pyTruthyList`. -/

/-- Python truthiness of an optional string argument. -/
def pyTruthyStr : Option String → Bool
  | some s => !(s == "")
  | none => false

/-- Python truthiness of an optional list argument. -/
def pyTruthyList {α : Type} : Option (List α) → Bool
  | some l => !l.isEmpty
  | none => false

/-- Importing `pydb/main/database.py` at all fails: its line
`from .func.create_db_pool import pooledDB` names a function that
`pydb/main/func/create_db_pool.py` — shown in full, defining only `Singleton`
and `DBPool` — does not contain. -/
def databaseConnect.moduleImport : Except PyErr Unit :=
  .error (.importError "cannot import name pooledDB from pydb.main.func.create_db_pool")

/-- `databaseConnect.__post_init__`, granting the import: its first statement
`get_secret(self.name, self.override)` passes `self.override` POSITIONALLY,
but `get_secret(secret_name, *, path=str(), vault=False)` takes every
parameter after `secret_name` keyword-only, so every construction raises
TypeError before the branch on the logical name (the part that would build
`mariaConnect(pooledDB(secret), True)` / `mongoConnect(secret)` /
`AzureTable(secret)`) can run. -/
def databaseConnect.postInit (_name : String) (_override : Bool) : Except PyErr Unit :=
  .error (.typeError "get_secret() takes 1 positional argument but 2 were given")

/-- `databaseConnect.select`: dispatches on the STORED logical name compared
against `"mariadb"`, `"mongodb"`, `"azure"`; argument-subset asserts and any
connector exception are caught by the bare `except:` and replaced by
`ValueError("Invalid input arguments")`; when no branch matches, the `try:`
body falls through and the method returns `None`. -/
def databaseConnect.select (name : String)
    (mariaSel : String → Option String → Except PyErr (List Row))
    (mongoFind : String → String → Except PyErr (List Row))
    (azureQuery : List String → List (String × Val) → String → Option String →
      Except PyErr (List Row))
    (query : Option String) (database : Option String)
    (features : Option (List String)) (parameters : Option (List (String × Val)))
    (name_filter : Option String) (collection_name : Option String) :
    Except PyErr (Option (List Row)) :=
  if name = "mariadb" then
    if pyTruthyStr query then
      match mariaSel (query.getD "") database with
      | .ok rows => .ok (some rows)
      | .error _ => .error (.valueError "Invalid input arguments")
    else .error (.valueError "Invalid input arguments")
  else if name = "mongodb" then
    if pyTruthyStr query && pyTruthyStr collection_name then
      match mongoFind (query.getD "") (collection_name.getD "") with
      | .ok rows => .ok (some rows)
      | .error _ => .error (.valueError "Invalid input arguments")
    else .error (.valueError "Invalid input arguments")
  else if name = "azure" then
    if pyTruthyList features && pyTruthyList parameters && pyTruthyStr name_filter then
      match azureQuery (features.getD []) (parameters.getD [])
          (name_filter.getD "") database with
      | .ok rows => .ok (some rows)
      | .error _ => .error (.valueError "Invalid input arguments")
    else .error (.valueError "Invalid input arguments")
  else .ok none

/-- `databaseConnect.insert`: same dispatch-and-bare-except shape as
`select`; the relational and document branches return `None` on success, the
wide-column branch returns the `insert_entity` result; no matching branch
returns `None`. -/
def databaseConnect.insert (name : String)
    (mariaIns : List Row → String → Option String → Except PyErr Unit)
    (mariaMerge : List Row → String → Option String → Except PyErr Unit)
    (mongoIns : List Row → String → Option String → Bool → Except PyErr Unit)
    (azureIns : List Row → String → Except PyErr Unit)
    (data : Option (List Row)) (table_name : Option String)
    (collection_name : Option String) (database : Option String)
    (is_merge_mode : Bool) : Except PyErr (Option Unit) :=
  if name = "mariadb" then
    if pyTruthyList data && pyTruthyStr table_name then
      match (if is_merge_mode then
               mariaMerge (data.getD []) (table_name.getD "") database
             else mariaIns (data.getD []) (table_name.getD "") database) with
      | .ok _ => .ok none
      | .error _ => .error (.valueError "Invalid input arguments")
    else .error (.valueError "Invalid input arguments")
  else if name = "mongodb" then
    if pyTruthyList data && pyTruthyStr collection_name then
      match mongoIns (data.getD []) (collection_name.getD "") database is_merge_mode with
      | .ok _ => .ok none
      | .error _ => .error (.valueError "Invalid input arguments")
    else .error (.valueError "Invalid input arguments")
  else if name = "azure" then
    if pyTruthyList data && pyTruthyStr database then
      match azureIns (data.getD []) (database.getD "") with
      | .ok _ => .ok (some ())
      | .error _ => .error (.valueError "Invalid input arguments")
    else .error (.valueError "Invalid input arguments")
  else .ok none

/-- C3 evaluated: the program never performs the claimed routing. A session
with logical name `"signal"`, `"record"` or `"sequence"` cannot even be
opened — importing the facade module fails (`pooledDB` does not exist in the
imported module), and granting the import, `__post_init__` raises TypeError
inside its very first statement, the mis-called `get_secret`. And even
granting a constructed session, the facade `select` body (embedded faithfully
below and approved under C10) compares the stored logical name against
`"mariadb"` / `"mongodb"` — names `__post_init__` never stores — so no
dispatch branch matches and the call returns `None` rather than the
relational select result or the document find result, whatever the
connectors would answer. -/
theorem facade_signal_select_unreachable
    (mariaSel : String → Option String → Except PyErr (List Row))
    (mongoFind : String → String → Except PyErr (List Row))
    (azureQuery : List String → List (String × Val) → String → Option String →
      Except PyErr (List Row))
    (q c : String) (ov : Bool) :
    databaseConnect.moduleImport =
      .error (.importError "cannot import name pooledDB from pydb.main.func.create_db_pool") ∧
    databaseConnect.postInit "signal" ov =
      .error (.typeError "get_secret() takes 1 positional argument but 2 were given") ∧
    databaseConnect.postInit "record" ov =
      .error (.typeError "get_secret() takes 1 positional argument but 2 were given") ∧
    databaseConnect.postInit "sequence" ov =
      .error (.typeError "get_secret() takes 1 positional argument but 2 were given") ∧
    databaseConnect.select "signal" mariaSel mongoFind azureQuery
      (some q) none none none none none = .ok none ∧
    databaseConnect.select "record" mariaSel mongoFind azureQuery
      (some q) none none none none none = .ok none ∧
    databaseConnect.select "sequence" mariaSel mongoFind azureQuery
      (some q) none none none none (some c) = .ok none := by
  refine ⟨rfl, rfl, rfl, rfl, ?_, ?_, ?_⟩ <;> rfl

/-- C10: every exception inside the facade's `select`/`insert` — argument
asserts and genuine connector failures alike — is replaced by
`ValueError("Invalid input arguments")` (the original kind and message are
discarded), and a stored name matching no dispatch branch makes both methods
return `None` instead of failing. -/
theorem facade_error_swallowing (e : PyErr) (q : String) (hq : q ≠ "")
    (rows : List Row) (hrows : rows ≠ []) (t : String) (ht : t ≠ "")
    (name : String) (h1 : name ≠ "mariadb") (h2 : name ≠ "mongodb")
    (h3 : name ≠ "azure")
    (mariaSel : String → Option String → Except PyErr (List Row))
    (mongoFind : String → String → Except PyErr (List Row))
    (azureQuery : List String → List (String × Val) → String → Option String →
      Except PyErr (List Row))
    (mariaIns mariaMerge : List Row → String → Option String → Except PyErr Unit)
    (mongoIns : List Row → String → Option String → Bool → Except PyErr Unit)
    (azureIns : List Row → String → Except PyErr Unit) :
    databaseConnect.select "mariadb" (fun _ _ => .error e) mongoFind azureQuery
      (some q) none none none none none =
      .error (.valueError "Invalid input arguments") ∧
    databaseConnect.insert "mariadb" (fun _ _ _ => .error e) mariaMerge mongoIns
      azureIns (some rows) (some t) none none false =
      .error (.valueError "Invalid input arguments") ∧
    databaseConnect.select name mariaSel mongoFind azureQuery
      (some q) none none none none none = .ok none ∧
    databaseConnect.insert name mariaIns mariaMerge mongoIns azureIns
      (some rows) (some t) none none false = .ok none := by
  refine ⟨?_, ?_, ?_, ?_⟩
  · simp [databaseConnect.select, pyTruthyStr, hq]
  · simp [databaseConnect.insert, pyTruthyList, pyTruthyStr, hrows, ht]
  · simp [databaseConnect.select, h1, h2, h3]
  · simp [databaseConnect.insert, h1, h2, h3]

/-- Witness for `facade_error_swallowing`: a concrete backend failure behind
the `"mariadb"` branch is reported as the fixed `ValueError`, and the logical
name `"signal"` matches no branch. -/
theorem facade_error_swallowing_witness :
    databaseConnect.select "mariadb"
      (fun _ _ => .error (.runtimeError "backend boom"))
      (fun _ _ => .ok []) (fun _ _ _ _ => .ok [])
      (some "SELECT 1") none none none none none =
      .error (.valueError "Invalid input arguments") ∧
    databaseConnect.select "signal" (fun _ _ => .ok [])
      (fun _ _ => .ok []) (fun _ _ _ _ => .ok [])
      (some "SELECT 1") none none none none none = .ok none :=
  ⟨(facade_error_swallowing (.runtimeError "backend boom") "SELECT 1" (by decide)
      [[("a", Val.int 1)]] (by decide) "t" (by decide) "signal" (by decide)
      (by decide) (by decide) (fun _ _ => .ok []) (fun _ _ => .ok [])
      (fun _ _ _ _ => .ok []) (fun _ _ _ => .ok ()) (fun _ _ _ => .ok ())
      (fun _ _ _ _ => .ok ()) (fun _ _ => .ok ())).1,
   (facade_error_swallowing (.runtimeError "backend boom") "SELECT 1" (by decide)
      [[("a", Val.int 1)]] (by decide) "t" (by decide) "signal" (by decide)
      (by decide) (by decide) (fun _ _ => .ok []) (fun _ _ => .ok [])
      (fun _ _ _ _ => .ok []) (fun _ _ _ => .ok ()) (fun _ _ _ => .ok ())
      (fun _ _ _ _ => .ok ()) (fun _ _ => .ok ())).2.2.1⟩
